import Mathlib

/-!
Verification of the capacity-constraint resolution algorithm and the
objective assembly policy of the calliope energy-system modelling backend.

The definitions below are a shallow embedding of
`src/calliope/backend/pyomo/constraints/capacity.py` and
`src/calliope/backend/pyomo/objective.py`.  Scalar parameter values are
modelled by `PVal`, which mirrors the values the Python code manipulates
(`None`, the `False` sentinel, finite floats as rationals, the two IEEE
infinities and NaN), together with Python's truthiness, `== 0` comparison,
`np.isinf`, and float multiplication.  Constraint expressions emitted into
the Pyomo model are represented by their outcome shape (`CapRes`, `SysRes`)
and, for the objective, by a small expression tree (`OExpr`) so that
structural properties ("the objective contains no slack terms") can be
stated in addition to value-level ones.
-/

/-- Scalar value as handled by the Python backend: `None`, the boolean
`False` sentinel used for unset parameters, a finite float (modelled as a
rational), the two IEEE infinities, and NaN. -/
inductive PVal
  | none
  | false_
  | num (q : ℚ)
  | inf
  | ninf
  | nan
deriving DecidableEq

/-- Python truthiness of a value (`bool(v)`): `None`, `False` and `0` are
falsy; nonzero numbers, infinities and NaN are truthy. -/
def PVal.truthy : PVal → Bool
  | PVal.none => false
  | PVal.false_ => false
  | PVal.num q => decide (q ≠ 0)
  | PVal.inf => true
  | PVal.ninf => true
  | PVal.nan => true

/-- The check on line 31 of capacity.py:
`po.value(_equals) is not False and po.value(_equals) is not None`.
Note that these are identity comparisons, so the number `0` passes. -/
def PVal.isSet : PVal → Bool
  | PVal.none => false
  | PVal.false_ => false
  | PVal.num _ => true
  | PVal.inf => true
  | PVal.ninf => true
  | PVal.nan => true

/-- Python `v == 0`: true for the number `0` and for `False`
(`False == 0` holds in Python); false for `None`, NaN and the infinities. -/
def PVal.eqZero : PVal → Bool
  | PVal.false_ => true
  | PVal.num q => decide (q = 0)
  | PVal.none => false
  | PVal.inf => false
  | PVal.ninf => false
  | PVal.nan => false

/-- `np.isinf(v)`: true exactly for the two infinities (false for NaN and
for `False`, which numpy coerces to `0.0`). -/
def PVal.isinf : PVal → Bool
  | PVal.inf => true
  | PVal.ninf => true
  | PVal.none => false
  | PVal.false_ => false
  | PVal.num _ => false
  | PVal.nan => false

/-- Python float multiplication on `PVal` (`False` coerces to `0.0`;
`0 * ±inf = nan`; any product with NaN is NaN).  The `None` rows are
unreachable in the resolver, which guards multiplications against `None`
(a `TypeError` in Python, modelled separately by `CapRes.pyError`). -/
def PVal.pmul : PVal → PVal → PVal
  | PVal.num a, PVal.num b => PVal.num (a * b)
  | PVal.num a, PVal.inf =>
      if 0 < a then PVal.inf else if a < 0 then PVal.ninf else PVal.nan
  | PVal.num a, PVal.ninf =>
      if 0 < a then PVal.ninf else if a < 0 then PVal.inf else PVal.nan
  | PVal.inf, PVal.num b =>
      if 0 < b then PVal.inf else if b < 0 then PVal.ninf else PVal.nan
  | PVal.ninf, PVal.num b =>
      if 0 < b then PVal.ninf else if b < 0 then PVal.inf else PVal.nan
  | PVal.inf, PVal.inf => PVal.inf
  | PVal.inf, PVal.ninf => PVal.ninf
  | PVal.ninf, PVal.inf => PVal.ninf
  | PVal.ninf, PVal.ninf => PVal.inf
  | PVal.false_, PVal.num _ => PVal.num 0
  | PVal.num _, PVal.false_ => PVal.num 0
  | PVal.false_, PVal.false_ => PVal.num 0
  | PVal.false_, PVal.inf => PVal.nan
  | PVal.inf, PVal.false_ => PVal.nan
  | PVal.false_, PVal.ninf => PVal.nan
  | PVal.ninf, PVal.false_ => PVal.nan
  | _, _ => PVal.nan

/-- Outcome of one capacity-constraint resolution call for a fixed
`(node, tech)` pair: the raised `ModelError` (with its message), a Python
`TypeError` (arithmetic or `np.isinf` applied to `None`), the equality
constraint `decision_variable[node, tech] == v`, the explicit
`po.Constraint.NoConstraint` marker, or the range tuple
`(lo, decision_variable[node, tech], hi)`. -/
inductive CapRes
  | modelError (msg : String)
  | pyError
  | equality (v : PVal)
  | noConstraint
  | range (lo hi : PVal)
deriving DecidableEq

/-- Resolution of one optional argument of `get_capacity_constraint`
(lines 25-30 of capacity.py): each of `if not _equals: _equals =
get_param(...)` keeps the supplied value when it is truthy and otherwise
fetches the named parameter from the store.  The store argument models
`get_param(backend_model, key, (node, tech))`, `Modelled from the spec`
for the ParameterResolver component, whose code is not part of this
repository slice: it returns the stored scalar or the false/unset
sentinel. -/
def resolve_arg (supplied : PVal) (store : String → PVal) (key : String) : PVal :=
  if supplied.truthy then supplied else store key

/-- Range branch of `get_capacity_constraint` (lines 42-45 of capacity.py):
apply the scale to both bounds when the scale is truthy, then return the
range tuple.  Multiplying `None` by a scale is a Python `TypeError`. -/
def range_res (mn1 mx1 scale : PVal) : CapRes :=
  if scale.truthy then
    if mx1 = PVal.none ∨ mn1 = PVal.none then CapRes.pyError
    else CapRes.range (mn1.pmul scale) (mx1.pmul scale)
  else CapRes.range mn1 mx1

/-- Shallow embedding of `get_capacity_constraint` (capacity.py lines
19-45).  Arguments `eq0 mx0 mn0 scale` are the caller-supplied `_equals`,
`_max`, `_min`, `scale` (each `PVal.none` when the caller leaves the
Python default).  Falsy supplied arguments are replaced by store lookups
under the `parameter + "_equals" / "_max" / "_min"` naming convention;
then: a set (`is not False`/`is not None`) equals value yields the
equality constraint after the infinity check and optional scaling,
otherwise `min == 0 and np.isinf(max)` yields `NoConstraint`, otherwise a
range with the scale applied to both bounds. -/
def get_capacity_constraint (store : String → PVal) (parameter node tech : String)
    (eq0 mx0 mn0 scale : PVal) : CapRes :=
  let eq1 := resolve_arg eq0 store (parameter ++ "_equals")
  let mx1 := resolve_arg mx0 store (parameter ++ "_max")
  let mn1 := resolve_arg mn0 store (parameter ++ "_min")
  if eq1.isSet then
    if eq1.isinf then
      CapRes.modelError
        ("Cannot use inf for " ++ parameter ++ "_equals for `" ++ tech ++ "` at `" ++ node ++ "`")
    else if scale.truthy then
      CapRes.equality (eq1.pmul scale)
    else
      CapRes.equality eq1
  else
    if mn1.eqZero then
      if mx1 = PVal.none then CapRes.pyError
      else if mx1.isinf then CapRes.noConstraint
      else range_res mn1 mx1 scale
    else range_res mn1 mx1 scale

/-- Shallow embedding of `resource_area_constraint_rule` (capacity.py
lines 209-246): when `energy_cap_max` compares equal to `0` (Python `==`,
so the `False` sentinel also qualifies) and the
`resource_area_per_energy_cap` ratio is falsy, force
`resource_area[node, tech] == 0`; otherwise delegate to
`get_capacity_constraint` for `resource_area` with no explicit
arguments. -/
def resource_area_constraint_rule (store : String → PVal) (node tech : String) : CapRes :=
  let energy_cap_max := store "energy_cap_max"
  let area_per_energy_cap := store "resource_area_per_energy_cap"
  if energy_cap_max.eqZero && !area_per_energy_cap.truthy then
    CapRes.equality (PVal.num 0)
  else
    get_capacity_constraint store "resource_area" node tech
      PVal.none PVal.none PVal.none PVal.none

/-- Outcome of the systemwide rule: a constraint on the sum of
`energy_cap` over the listed `(node, tech)` pairs, either an equality or
an upper bound against the given value. -/
inductive SysRes
  | sumEq (terms : List (String × String)) (v : PVal)
  | sumLe (terms : List (String × String)) (v : PVal)
deriving DecidableEq

/-- Shallow embedding of `energy_capacity_systemwide_constraint_rule`
(capacity.py lines 321-353).  The store models `get_param(backend_model,
key, tech)` for the per-tech systemwide parameters.  The summed terms are
exactly the `(node, tech)` pairs with `node` drawn from `nodes` that are
present in the `energy_cap` index set (`quicksum` with an `in` filter);
a truthy `energy_cap_equals_systemwide` gives the equality, otherwise the
`energy_cap_max_systemwide` upper bound. -/
def energy_capacity_systemwide_constraint_rule (store : String → PVal)
    (nodes : List String) (energy_cap_index : List (String × String)) (tech : String) : SysRes :=
  let max_systemwide := store "energy_cap_max_systemwide"
  let equals_systemwide := store "energy_cap_equals_systemwide"
  let energy_cap :=
    (nodes.filter (fun node => energy_cap_index.contains (node, tech))).map
      (fun node => (node, tech))
  if equals_systemwide.truthy then SysRes.sumEq energy_cap equals_systemwide
  else SysRes.sumLe energy_cap max_systemwide

/-- Atomic model quantities appearing in the objective expression:
`cost[class, loc_tech]`, the slack variables `unmet_demand[a, b, t]` and
`unused_supply[a, b, t]`, the per-timestep weight parameter and the `bigM`
penalty coefficient. -/
inductive OAtom
  | cost (cls : String) (i : String × String)
  | unmet_demand (a b t : String)
  | unused_supply (a b t : String)
  | timestep_weight (t : String)
  | bigM
deriving DecidableEq

/-- Expression tree built by the objective rule (sums, differences and
products of atoms and numeric constants), so that which model quantities
appear in the objective is itself observable. -/
inductive OExpr
  | const (q : ℚ)
  | atom (a : OAtom)
  | add (e1 e2 : OExpr)
  | sub (e1 e2 : OExpr)
  | mul (e1 e2 : OExpr)
deriving DecidableEq

/-- Value of an objective expression under an assignment of rationals to
the atomic model quantities. -/
def OExpr.eval (env : OAtom → ℚ) : OExpr → ℚ
  | OExpr.const q => q
  | OExpr.atom a => env a
  | OExpr.add e1 e2 => e1.eval env + e2.eval env
  | OExpr.sub e1 e2 => e1.eval env - e2.eval env
  | OExpr.mul e1 e2 => e1.eval env * e2.eval env

/-- Whether an atom is one of the two infeasibility slack variables. -/
def OAtom.isSlack : OAtom → Bool
  | OAtom.unmet_demand _ _ _ => true
  | OAtom.unused_supply _ _ _ => true
  | OAtom.cost _ _ => false
  | OAtom.timestep_weight _ => false
  | OAtom.bigM => false

/-- Whether an expression mentions either infeasibility slack variable
(`unmet_demand` or `unused_supply`). -/
def OExpr.usesSlack : OExpr → Bool
  | OExpr.const _ => false
  | OExpr.atom a => a.isSlack
  | OExpr.add e1 e2 => e1.usesSlack || e2.usesSlack
  | OExpr.sub e1 e2 => e1.usesSlack || e2.usesSlack
  | OExpr.mul e1 e2 => e1.usesSlack || e2.usesSlack

/-- Python's builtin `sum` over a list of expressions: left fold of `+`
starting from `0`. -/
def sumO (es : List OExpr) : OExpr :=
  es.foldl OExpr.add (OExpr.const 0)

/-- Dictionary lookup `cfg.get(key, dflt)` on the run configuration,
modelled as an association list. -/
def cfg_get (cfg : List (String × Bool)) (key : String) (dflt : Bool) : Bool :=
  match cfg.find? (fun kv => kv.1 == key) with
  | some kv => kv.2
  | Option.none => dflt

/-- Data of the Pyomo model consumed by `minmax_cost_optimization`
(objective.py lines 17-66): the run configuration, the objective sense
string, the timestep list, the index pairs of the `unmet_demand` and
`unused_supply` slices `[:, :, timestep]`, the
`objective_cost_class.items()` list of (cost class, weight) pairs, and
the index pairs of the `cost[k, :, :]` slice. -/
structure ObjModel where
  run_config : List (String × Bool)
  objective_sense : String
  timesteps : List String
  unmetIdx : List (String × String)
  unusedIdx : List (String × String)
  cost_classes : List (String × ℚ)
  costIdx : List (String × String)

/-- Weighted cost part of the objective (objective.py lines 54-59):
`sum(sum(backend_model.cost[k, :, :]) * v for k, v in
backend_model.objective_cost_class.items())`. -/
def cost_sum (m : ObjModel) : OExpr :=
  sumO (m.cost_classes.map (fun kv =>
    OExpr.mul (sumO (m.costIdx.map (fun i => OExpr.atom (OAtom.cost kv.1 i))))
      (OExpr.const kv.2)))

/-- Penalty expression of objective.py lines 42-48, with Python's operator
precedence preserved: for each timestep the term is
`sum(unmet_demand[:, :, t]) - sum(unused_supply[:, :, t]) *
timestep_weights[t] * bigM`, i.e. the weight and `bigM` multiply only the
unused-supply sum. -/
def penalty_expr (m : ObjModel) : OExpr :=
  sumO (m.timesteps.map (fun t =>
    OExpr.sub
      (sumO (m.unmetIdx.map (fun i => OExpr.atom (OAtom.unmet_demand i.1 i.2 t))))
      (OExpr.mul
        (OExpr.mul
          (sumO (m.unusedIdx.map (fun i => OExpr.atom (OAtom.unused_supply i.1 i.2 t))))
          (OExpr.atom (OAtom.timestep_weight t)))
        (OExpr.atom OAtom.bigM))))

/-- Shallow embedding of `obj_rule` inside `minmax_cost_optimization`
(objective.py lines 40-60): when
`run_config.get("ensure_feasibility", False)` holds, the penalty
expression is added to the weighted cost sum, negated (`*= -1`) when the
objective sense is `"maximize"`; otherwise the local `unmet_demand` is
the integer `0` and the returned expression is the cost sum plus `0`. -/
def obj_rule (m : ObjModel) : OExpr :=
  if cfg_get m.run_config "ensure_feasibility" false then
    if m.objective_sense == "maximize" then
      OExpr.add (cost_sum m) (OExpr.mul (penalty_expr m) (OExpr.const (-1)))
    else
      OExpr.add (cost_sum m) (penalty_expr m)
  else
    OExpr.add (cost_sum m) (OExpr.const 0)

/-- Penalty formula as written in the specification: for every timestep,
`(sum of unmet_demand - sum of unused_supply) * timestep_weight * bigM`,
summed over timesteps.  Modelled from the spec for comparison with the
expression `penalty_expr` built by the code. -/
def spec_penalty (m : ObjModel) (env : OAtom → ℚ) : ℚ :=
  (m.timesteps.map (fun t =>
    ((m.unmetIdx.map (fun i => env (OAtom.unmet_demand i.1 i.2 t))).sum
      - (m.unusedIdx.map (fun i => env (OAtom.unused_supply i.1 i.2 t))).sum)
      * env (OAtom.timestep_weight t) * env OAtom.bigM)).sum

/-- Concrete store for the C1 witness: only `energy_cap_equals` is
configured (to 50); `energy_cap_max`/`energy_cap_min` are supplied by the
caller with contradictory values. -/
def storeC1 : String → PVal := fun key =>
  if key == "energy_cap_equals" then PVal.num 50 else PVal.false_

/-- Concrete store for the C3 witness: equals absent, min configured to
exactly 0, max to positive infinity. -/
def storeC3 : String → PVal := fun key =>
  if key == "storage_cap_min" then PVal.num 0
  else if key == "storage_cap_max" then PVal.inf
  else PVal.false_

/-- C1: if the equals parameter resolves (caller-supplied value, with the
store consulted for `{parameter}_equals` when the supplied value is falsy)
to a finite number `q`, the resolver returns the equality constraint
binding the decision variable to `q` — multiplied by the scale factor when
a (truthy) scale is given — for every store and all caller-supplied max
and min values, even contradictory ones. -/
theorem capacity_equals_priority
    (store : String → PVal) (parameter node tech : String)
    (eq0 mx0 mn0 scale : PVal) (q : ℚ)
    (h : resolve_arg eq0 store (parameter ++ "_equals") = PVal.num q) :
    (scale.truthy = false →
      get_capacity_constraint store parameter node tech eq0 mx0 mn0 scale
        = CapRes.equality (PVal.num q)) ∧
    ∀ s : ℚ, scale = PVal.num s → s ≠ 0 →
      get_capacity_constraint store parameter node tech eq0 mx0 mn0 scale
        = CapRes.equality (PVal.num (q * s)) := by
  constructor
  · intro hs
    simp [get_capacity_constraint, h, PVal.isSet, PVal.isinf, hs]
  · intro s hs hns
    subst hs
    simp [get_capacity_constraint, h, PVal.isSet, PVal.isinf, PVal.truthy, PVal.pmul, hns]

/-- Witness for C1 at a concrete input: `energy_cap_equals = 50` in the
store, with contradictory caller-supplied `_max = 4` and `_min = 9`, still
yields `energy_cap == 50`. -/
theorem capacity_equals_priority_witness :
    get_capacity_constraint storeC1 "energy_cap" "n1" "boiler"
      PVal.none (PVal.num 4) (PVal.num 9) PVal.none = CapRes.equality (PVal.num 50) :=
  (capacity_equals_priority storeC1 "energy_cap" "n1" "boiler"
    PVal.none (PVal.num 4) (PVal.num 9) PVal.none 50 (by decide)).1 (by decide)

/-- C2: if the equals parameter resolves to positive infinity, the
resolver raises the `ModelError` whose message names the parameter, the
technology and the node, and returns no range, no-constraint marker, or
equality constraint, for any parameter (capacity kind), store and
caller-supplied arguments. -/
theorem capacity_inf_equals_error
    (store : String → PVal) (parameter node tech : String)
    (eq0 mx0 mn0 scale : PVal)
    (h : resolve_arg eq0 store (parameter ++ "_equals") = PVal.inf) :
    get_capacity_constraint store parameter node tech eq0 mx0 mn0 scale
      = CapRes.modelError
          ("Cannot use inf for " ++ parameter ++ "_equals for `" ++ tech ++ "` at `" ++ node ++ "`")
    ∧ (∀ lo hi, get_capacity_constraint store parameter node tech eq0 mx0 mn0 scale
        ≠ CapRes.range lo hi)
    ∧ get_capacity_constraint store parameter node tech eq0 mx0 mn0 scale
        ≠ CapRes.noConstraint
    ∧ ∀ v, get_capacity_constraint store parameter node tech eq0 mx0 mn0 scale
        ≠ CapRes.equality v := by
  have hg : get_capacity_constraint store parameter node tech eq0 mx0 mn0 scale
      = CapRes.modelError
          ("Cannot use inf for " ++ parameter ++ "_equals for `" ++ tech ++ "` at `" ++ node ++ "`") := by
    simp [get_capacity_constraint, h, PVal.isSet, PVal.isinf]
  refine ⟨hg, ?_, ?_, ?_⟩ <;> simp [hg]

/-- Witness for C2 at a concrete input: `resource_cap_equals = +inf` in
the store raises the error naming `resource_cap_equals`, the technology
`ccgt` and the node `region1`. -/
theorem capacity_inf_equals_error_witness :
    get_capacity_constraint
      (fun key => if key == "resource_cap_equals" then PVal.inf else PVal.false_)
      "resource_cap" "region1" "ccgt" PVal.none PVal.none PVal.none PVal.none
      = CapRes.modelError "Cannot use inf for resource_cap_equals for `ccgt` at `region1`" :=
  (capacity_inf_equals_error
    (fun key => if key == "resource_cap_equals" then PVal.inf else PVal.false_)
    "resource_cap" "region1" "ccgt" PVal.none PVal.none PVal.none PVal.none (by decide)).1

/-- C3: if the equals parameter is absent (the resolved value is the
false/unset sentinel or `None`), min resolves to exactly 0 and max to
positive infinity, the resolver returns the explicit no-constraint
marker — not a range constraint, and not an error. -/
theorem capacity_unconstrained
    (store : String → PVal) (parameter node tech : String)
    (eq0 mx0 mn0 scale : PVal)
    (he : (resolve_arg eq0 store (parameter ++ "_equals")).isSet = false)
    (hmin : resolve_arg mn0 store (parameter ++ "_min") = PVal.num 0)
    (hmax : resolve_arg mx0 store (parameter ++ "_max") = PVal.inf) :
    get_capacity_constraint store parameter node tech eq0 mx0 mn0 scale
      = CapRes.noConstraint
    ∧ (∀ lo hi, get_capacity_constraint store parameter node tech eq0 mx0 mn0 scale
        ≠ CapRes.range lo hi)
    ∧ (∀ msg, get_capacity_constraint store parameter node tech eq0 mx0 mn0 scale
        ≠ CapRes.modelError msg)
    ∧ get_capacity_constraint store parameter node tech eq0 mx0 mn0 scale
        ≠ CapRes.pyError := by
  have hg : get_capacity_constraint store parameter node tech eq0 mx0 mn0 scale
      = CapRes.noConstraint := by
    simp [get_capacity_constraint, he, hmin, hmax, PVal.eqZero, PVal.isinf]
  refine ⟨hg, ?_, ?_, ?_⟩ <;> simp [hg]

/-- Witness for C3 at a concrete input: `storage_cap` with equals unset,
`storage_cap_min = 0` and `storage_cap_max = +inf` yields the explicit
no-constraint marker. -/
theorem capacity_unconstrained_witness :
    get_capacity_constraint storeC3 "storage_cap" "n1" "battery"
      PVal.none PVal.none PVal.none PVal.none = CapRes.noConstraint :=
  (capacity_unconstrained storeC3 "storage_cap" "n1" "battery"
    PVal.none PVal.none PVal.none PVal.none (by decide) (by decide) (by decide)).1

/-- Concrete stores for C4, differing only in `energy_cap_max`. -/
def storeC4a : String → PVal := fun key =>
  if key == "energy_cap_max" then PVal.num 5
  else if key == "energy_cap_min" then PVal.num 1
  else PVal.false_

/-- Concrete store for C4 with a different `energy_cap_max` than
`storeC4a`. -/
def storeC4b : String → PVal := fun key =>
  if key == "energy_cap_max" then PVal.num 7
  else if key == "energy_cap_min" then PVal.num 1
  else PVal.false_

/-- Counterexample for C4: with `_max` explicitly supplied as `0`, the
resolver nevertheless consults the store (two stores differing only at
`energy_cap_max` give different results), and the result carries the
store's bound 5, not the supplied 0. -/
theorem capacity_supplied_zero_counterexample :
    get_capacity_constraint storeC4a "energy_cap" "n1" "ccgt"
        PVal.none (PVal.num 0) PVal.none PVal.none
      = CapRes.range (PVal.num 1) (PVal.num 5) ∧
    get_capacity_constraint storeC4b "energy_cap" "n1" "ccgt"
        PVal.none (PVal.num 0) PVal.none PVal.none
      = CapRes.range (PVal.num 1) (PVal.num 7) ∧
    CapRes.range (PVal.num 1) (PVal.num 5) ≠ CapRes.range (PVal.num 1) (PVal.num 0) := by
  decide

/-- C4 (amended): a caller-supplied argument is used, and the store left
unconsulted, exactly when the supplied value is truthy; a falsy supplied
value (`None`, `False`, or zero) is replaced by the store lookup under
the `{variable}_equals` / `{variable}_max` / `{variable}_min` naming
convention.  In particular the resolver's output is independent of the
store whenever all three arguments are supplied truthy. -/
theorem capacity_arg_resolution :
    (∀ (supplied : PVal) (store : String → PVal) (key : String),
      (supplied.truthy = true → resolve_arg supplied store key = supplied) ∧
      (supplied.truthy = false → resolve_arg supplied store key = store key)) ∧
    ∀ (store1 store2 : String → PVal) (parameter node tech : String) (eq0 mx0 mn0 scale : PVal),
      eq0.truthy = true → mx0.truthy = true → mn0.truthy = true →
      get_capacity_constraint store1 parameter node tech eq0 mx0 mn0 scale
        = get_capacity_constraint store2 parameter node tech eq0 mx0 mn0 scale := by
  constructor
  · intro supplied store key
    constructor <;> intro h <;> simp [resolve_arg, h]
  · intro store1 store2 parameter node tech eq0 mx0 mn0 scale h1 h2 h3
    simp [get_capacity_constraint, resolve_arg, h1, h2, h3]

/-- Witness for C4 (amended) at concrete inputs: a truthy supplied value
is kept, a supplied zero is replaced by the stored 5, and with all three
arguments supplied truthy the two differing stores give equal results. -/
theorem capacity_arg_resolution_witness :
    resolve_arg (PVal.num 2) storeC4a "energy_cap_max" = PVal.num 2 ∧
    resolve_arg (PVal.num 0) storeC4a "energy_cap_max" = PVal.num 5 ∧
    get_capacity_constraint storeC4a "energy_cap" "n1" "ccgt"
        (PVal.num 6) (PVal.num 4) (PVal.num 2) PVal.none
      = get_capacity_constraint storeC4b "energy_cap" "n1" "ccgt"
        (PVal.num 6) (PVal.num 4) (PVal.num 2) PVal.none :=
  ⟨(capacity_arg_resolution.1 (PVal.num 2) storeC4a "energy_cap_max").1 (by decide),
    ((capacity_arg_resolution.1 (PVal.num 0) storeC4a "energy_cap_max").2 (by decide)).trans
      (by decide),
    capacity_arg_resolution.2 storeC4a storeC4b "energy_cap" "n1" "ccgt"
      (PVal.num 6) (PVal.num 4) (PVal.num 2) PVal.none (by decide) (by decide) (by decide)⟩

/-- Concrete store for the C6 witness: equals absent, finite min and max
bounds. -/
def storeC6 : String → PVal := fun key =>
  if key == "energy_cap_min" then PVal.num 2
  else if key == "energy_cap_max" then PVal.num 8
  else PVal.false_

/-- C6: if the equals parameter is absent, min resolves to a finite
number `a`, max resolves to a finite number or positive infinity, and the
pair is not the unconstrained case (`a = 0` with max `= +inf`), the
resolver returns the range constraint on the resolved bounds; when a
(truthy) scale is given it is applied by the same multiplication to both
bounds. -/
theorem capacity_range
    (store : String → PVal) (parameter node tech : String)
    (eq0 mx0 mn0 scale : PVal) (a : ℚ)
    (he : (resolve_arg eq0 store (parameter ++ "_equals")).isSet = false)
    (hmin : resolve_arg mn0 store (parameter ++ "_min") = PVal.num a)
    (hmax : (∃ b : ℚ, resolve_arg mx0 store (parameter ++ "_max") = PVal.num b)
      ∨ resolve_arg mx0 store (parameter ++ "_max") = PVal.inf)
    (hnu : ¬(a = 0 ∧ resolve_arg mx0 store (parameter ++ "_max") = PVal.inf)) :
    (scale.truthy = false →
      get_capacity_constraint store parameter node tech eq0 mx0 mn0 scale
        = CapRes.range (PVal.num a) (resolve_arg mx0 store (parameter ++ "_max"))) ∧
    (scale.truthy = true →
      get_capacity_constraint store parameter node tech eq0 mx0 mn0 scale
        = CapRes.range ((PVal.num a).pmul scale)
            ((resolve_arg mx0 store (parameter ++ "_max")).pmul scale)) := by
  constructor <;> intro hs <;> rcases hmax with ⟨b, hb⟩ | hb <;> by_cases ha : a = 0 <;>
    simp_all [get_capacity_constraint, range_res, PVal.eqZero, PVal.isinf]

/-- Witness for C6 at a concrete input: equals absent,
`energy_cap_min = 2`, `energy_cap_max = 8`, no scale, yields
`Range(2, 8)`. -/
theorem capacity_range_witness :
    get_capacity_constraint storeC6 "energy_cap" "n1" "pv"
      PVal.none PVal.none PVal.none PVal.none = CapRes.range (PVal.num 2) (PVal.num 8) := by
  have h := (capacity_range storeC6 "energy_cap" "n1" "pv"
    PVal.none PVal.none PVal.none PVal.none 2
    (by decide) (by decide) (Or.inl ⟨8, by decide⟩) (by decide)).1 (by decide)
  rw [h]
  decide

/-- Concrete store for the C7 counterexample: `energy_cap_max = 0`, the
area ratio configured to the value `0` (set, but falsy), and
`resource_area_equals = 5`. -/
def storeC7 : String → PVal := fun key =>
  if key == "energy_cap_max" then PVal.num 0
  else if key == "resource_area_per_energy_cap" then PVal.num 0
  else if key == "resource_area_equals" then PVal.num 5
  else PVal.false_

/-- Counterexample for C7: with the area ratio set (to `0`) the claim
requires delegation to the generic resolver, which here would yield
`resource_area == 5`; the rule instead zero-forces `resource_area == 0`
because the ratio, although set, is falsy. -/
theorem resource_area_zero_forcing_counterexample :
    resource_area_constraint_rule storeC7 "n1" "pv" = CapRes.equality (PVal.num 0) ∧
    get_capacity_constraint storeC7 "resource_area" "n1" "pv"
        PVal.none PVal.none PVal.none PVal.none = CapRes.equality (PVal.num 5) ∧
    CapRes.equality (PVal.num 0) ≠ CapRes.equality (PVal.num 5) := by
  decide

/-- C7 (amended): the resource-area rule forces `resource_area == 0`
exactly when `energy_cap_max` compares equal to 0 under Python `==` (so
the unset `False` sentinel qualifies too) and the
`resource_area_per_energy_cap` ratio is falsy (unset, `False`, or zero);
in every other case it delegates to the generic capacity-constraint
resolver for `resource_area` with no explicit arguments. -/
theorem resource_area_zero_forcing
    (store : String → PVal) (node tech : String) :
    ((store "energy_cap_max").eqZero = true →
      (store "resource_area_per_energy_cap").truthy = false →
      resource_area_constraint_rule store node tech = CapRes.equality (PVal.num 0)) ∧
    ((store "energy_cap_max").eqZero = false ∨
        (store "resource_area_per_energy_cap").truthy = true →
      resource_area_constraint_rule store node tech
        = get_capacity_constraint store "resource_area" node tech
            PVal.none PVal.none PVal.none PVal.none) := by
  constructor
  · intro h1 h2
    simp [resource_area_constraint_rule, h1, h2]
  · intro h
    rcases h with h | h <;> simp [resource_area_constraint_rule, h]

/-- Witness for C7 (amended) at a concrete input: `energy_cap_max = 0`
with the ratio falsy zero-forces the area variable. -/
theorem resource_area_zero_forcing_witness :
    resource_area_constraint_rule storeC7 "n2" "wind" = CapRes.equality (PVal.num 0) :=
  (resource_area_zero_forcing storeC7 "n2" "wind").1 (by decide) (by decide)

/-- Concrete store for the C8 counterexample: the systemwide equals is
set to the value `0` and a systemwide max of 10 is also set. -/
def storeC8 : String → PVal := fun key =>
  if key == "energy_cap_equals_systemwide" then PVal.num 0
  else if key == "energy_cap_max_systemwide" then PVal.num 10
  else PVal.false_

/-- Counterexample for C8: with the systemwide equals set (to `0`), the
claim requires the equality constraint on the summed capacity; the rule
instead emits the max bound, because `if equals_systemwide:` treats the
set-but-zero value as unset. -/
theorem systemwide_equals_counterexample :
    energy_capacity_systemwide_constraint_rule storeC8 ["n1", "n2"] [("n1", "chp")] "chp"
      = SysRes.sumLe [("n1", "chp")] (PVal.num 10) ∧
    SysRes.sumLe [("n1", "chp")] (PVal.num 10) ≠ SysRes.sumEq [("n1", "chp")] (PVal.num 0) := by
  decide

/-- C8 (amended): when the systemwide equals value is truthy (set and
nonzero), the rule constrains the sum of `energy_cap` over exactly those
`(node, tech)` pairs present in the `energy_cap` index set (absent pairs
are skipped) to equal that value, whatever the systemwide max; the max
bound is emitted exactly when the systemwide equals is falsy (unset,
`False`, or zero). -/
theorem systemwide_equals_precedence
    (store : String → PVal) (nodes : List String)
    (energy_cap_index : List (String × String)) (tech : String) :
    ((store "energy_cap_equals_systemwide").truthy = true →
      energy_capacity_systemwide_constraint_rule store nodes energy_cap_index tech
        = SysRes.sumEq
            ((nodes.filter (fun node => energy_cap_index.contains (node, tech))).map
              (fun node => (node, tech)))
            (store "energy_cap_equals_systemwide")) ∧
    ((store "energy_cap_equals_systemwide").truthy = false →
      energy_capacity_systemwide_constraint_rule store nodes energy_cap_index tech
        = SysRes.sumLe
            ((nodes.filter (fun node => energy_cap_index.contains (node, tech))).map
              (fun node => (node, tech)))
            (store "energy_cap_max_systemwide")) := by
  constructor <;> intro h <;> simp [energy_capacity_systemwide_constraint_rule, h]

/-- Concrete store for the C8 witness: systemwide equals 7 with a
systemwide max of 100 also set. -/
def storeC8w : String → PVal := fun key =>
  if key == "energy_cap_equals_systemwide" then PVal.num 7
  else if key == "energy_cap_max_systemwide" then PVal.num 100
  else PVal.false_

/-- Witness for C8 (amended) at a concrete input: equals 7 wins over the
max of 100, the summed pairs being exactly the two present in the index
set out of three nodes. -/
theorem systemwide_equals_precedence_witness :
    energy_capacity_systemwide_constraint_rule storeC8w ["n1", "n2", "n3"]
        [("n1", "chp"), ("n3", "chp"), ("n2", "other")] "chp"
      = SysRes.sumEq [("n1", "chp"), ("n3", "chp")] (PVal.num 7) := by
  have h := (systemwide_equals_precedence storeC8w ["n1", "n2", "n3"]
    [("n1", "chp"), ("n3", "chp"), ("n2", "other")] "chp").1 (by decide)
  rw [h]
  decide

/-- Evaluation of a left fold of `OExpr.add`: the value of the
accumulator plus the sum of the values of the list elements. -/
theorem foldl_add_eval (env : OAtom → ℚ) (l : List OExpr) (e : OExpr) :
    (l.foldl OExpr.add e).eval env = e.eval env + (l.map (fun x => x.eval env)).sum := by
  induction l generalizing e with
  | nil => simp
  | cons x xs ih =>
    simp [List.foldl_cons, ih, OExpr.eval]
    ring

/-- Evaluation of a Python `sum` of expressions. -/
theorem sumO_eval (env : OAtom → ℚ) (l : List OExpr) :
    (sumO l).eval env = (l.map (fun x => x.eval env)).sum := by
  simp [sumO, foldl_add_eval, OExpr.eval]

/-- Slack usage of a left fold of `OExpr.add`. -/
theorem foldl_add_usesSlack (l : List OExpr) (e : OExpr) :
    (l.foldl OExpr.add e).usesSlack = (e.usesSlack || l.any OExpr.usesSlack) := by
  induction l generalizing e with
  | nil => simp
  | cons x xs ih =>
    simp [List.foldl_cons, ih, OExpr.usesSlack, Bool.or_assoc]

/-- Slack usage of a Python `sum` of expressions. -/
theorem sumO_usesSlack (l : List OExpr) :
    (sumO l).usesSlack = l.any OExpr.usesSlack := by
  simp [sumO, foldl_add_usesSlack, OExpr.usesSlack]

/-- A sum of slack-free expressions is slack-free. -/
theorem sumO_map_usesSlack_false {α : Type} (l : List α) (f : α → OExpr)
    (hf : ∀ a, (f a).usesSlack = false) : (sumO (l.map f)).usesSlack = false := by
  rw [sumO_usesSlack, List.any_eq_false]
  intro x hx
  rw [List.mem_map] at hx
  obtain ⟨a, ha, rfl⟩ := hx
  simp [hf]

/-- C10: when `ensure_feasibility` is false or absent from the run
configuration, the objective expression mentions no `unmet_demand` or
`unused_supply` atoms at all, and its value under every assignment is
exactly the weighted sum over cost classes of the per-class cost sums. -/
theorem objective_no_slack_when_flag_unset
    (m : ObjModel) (h : cfg_get m.run_config "ensure_feasibility" false = false) :
    (obj_rule m).usesSlack = false ∧
    ∀ env : OAtom → ℚ, (obj_rule m).eval env
      = (m.cost_classes.map (fun kv =>
          ((m.costIdx.map (fun i => env (OAtom.cost kv.1 i))).sum) * kv.2)).sum := by
  have hr : obj_rule m = OExpr.add (cost_sum m) (OExpr.const 0) := by
    simp [obj_rule, h]
  constructor
  · rw [hr]
    have hc : (cost_sum m).usesSlack = false := by
      rw [cost_sum]
      apply sumO_map_usesSlack_false
      intro kv
      have hinner : (sumO (m.costIdx.map (fun i =>
          OExpr.atom (OAtom.cost kv.1 i)))).usesSlack = false := by
        apply sumO_map_usesSlack_false
        intro i
        rfl
      simp [OExpr.usesSlack, hinner]
    simp [OExpr.usesSlack, hc]
  · intro env
    rw [hr]
    simp only [OExpr.eval, add_zero]
    rw [cost_sum, sumO_eval, List.map_map]
    refine congrArg List.sum ?_
    have hf : ((fun x => OExpr.eval env x) ∘ fun kv : String × ℚ =>
        OExpr.mul (sumO (m.costIdx.map (fun i => OExpr.atom (OAtom.cost kv.1 i))))
          (OExpr.const kv.2))
        = fun kv : String × ℚ =>
          ((m.costIdx.map (fun i => env (OAtom.cost kv.1 i))).sum) * kv.2 := by
      funext kv
      simp only [Function.comp_apply, OExpr.eval, sumO_eval, List.map_map]
      rfl
    rw [hf]

/-- Concrete model for the C10 witness: flag absent from the run
configuration, one cost class of weight 2 over two cost indices, with
slack index sets present in the model data. -/
def mC10 : ObjModel :=
  ObjModel.mk [("objective", true)] "minimize" ["t0"] [("a", "b")] [("a", "b")]
    [("monetary", 2)] [("n1", "chp"), ("n2", "pv")]

/-- Concrete assignment for the C10 witness. -/
def envC10 : OAtom → ℚ
  | OAtom.cost _ i => if i.1 == "n1" then 5 else 7
  | OAtom.unmet_demand _ _ _ => 100
  | OAtom.unused_supply _ _ _ => 50
  | OAtom.timestep_weight _ => 3
  | OAtom.bigM => 10

/-- Witness for C10 at a concrete input: with the flag absent the
objective uses no slack atoms and evaluates to `(5 + 7) * 2 = 24`, even
though the slack variables carry large values. -/
theorem objective_no_slack_when_flag_unset_witness :
    (obj_rule mC10).usesSlack = false ∧ (obj_rule mC10).eval envC10 = 24 := by
  have h := objective_no_slack_when_flag_unset mC10 (by decide)
  refine ⟨h.1, (h.2 envC10).trans ?_⟩
  have hne : ("n2" : String) ≠ "n1" := by decide
  simp only [mC10, envC10]
  norm_num [hne]

/-- C9: with `ensure_feasibility` set, the penalty term contributed to
the objective (the objective minus the same model's objective with the
flag unset) under sense `"maximize"` is the exact negation of the term
contributed under sense `"minimize"`, for identical `unmet_demand` and
`unused_supply` values. -/
theorem objective_penalty_sign_flip
    (ts : List String) (ui uu : List (String × String))
    (cc : List (String × ℚ)) (ci : List (String × String)) (env : OAtom → ℚ) :
    (obj_rule (ObjModel.mk [("ensure_feasibility", true)] "maximize" ts ui uu cc ci)).eval env
      - (obj_rule (ObjModel.mk [("ensure_feasibility", false)] "maximize" ts ui uu cc ci)).eval env
    = -((obj_rule (ObjModel.mk [("ensure_feasibility", true)] "minimize" ts ui uu cc ci)).eval env
        - (obj_rule (ObjModel.mk [("ensure_feasibility", false)] "minimize" ts ui uu cc ci)).eval env) := by
  simp [obj_rule, cost_sum, penalty_expr, cfg_get, List.find?, OExpr.eval,
    (by decide : (("minimize" : String) == "maximize") = false)]

/-- Concrete model for the C5 failing input, minimize sense: one
timestep, one slack index pair, no cost classes. -/
def mC5 : ObjModel :=
  ObjModel.mk [("ensure_feasibility", true)] "minimize" ["t0"] [("a", "b")] [("a", "b")] [] []

/-- Concrete assignment for the C5 failing input: `unmet_demand = 1`,
`unused_supply = 0`, `timestep_weight = 3`, `bigM = 10`. -/
def envC5 : OAtom → ℚ
  | OAtom.unmet_demand _ _ _ => 1
  | OAtom.unused_supply _ _ _ => 0
  | OAtom.timestep_weight _ => 3
  | OAtom.bigM => 10
  | OAtom.cost _ _ => 0

/-- C5 failing input, evaluated: the objective built by the code comes to
`1` (the unmet-demand sum is not multiplied by the timestep weight or
`bigM`, which bind only to the unused-supply sum), while the
specification's penalty formula `(sum unmet - sum unused) * weight * bigM`
comes to `30` on the same data. -/
theorem objective_penalty_precedence_bug :
    (obj_rule mC5).eval envC5 = 1 ∧
    spec_penalty mC5 envC5 = 30 ∧
    (obj_rule mC5).eval envC5 ≠ spec_penalty mC5 envC5 := by
  have h1 : (obj_rule mC5).eval envC5 = 1 := by
    norm_num [obj_rule, mC5, cfg_get, List.find?, cost_sum, penalty_expr, sumO,
      OExpr.eval, envC5]
  have h2 : spec_penalty mC5 envC5 = 30 := by
    norm_num [spec_penalty, mC5, envC5]
  refine ⟨h1, h2, ?_⟩
  rw [h1, h2]
  norm_num
